import Mathlib

/-!
Shallow embedding of `src/rds_helpers.py`, a module of thin wrappers around
a cloud provider's database-administration API (boto3 RDS client) and a
MySQL driver (pymysql), together with proofs of the specified contracts.

Modelling conventions:
* A Python exception is modelled by its textual representation (`Exn`).
* A call that may raise is modelled as `Except Exn α`.
* The external collaborators (the administrative client and the MySQL
  driver) are records of such fallible operations, parametrised over an
  abstract response type `ρ` so that "returned unchanged" is meaningful.
* `print` output is modelled by a list of emitted diagnostic lines that is
  returned alongside the result.
* A function whose body may raise before its `try` block (client
  construction) returns `Except Exn (...)`: an `.error` result is an
  exception propagating to the caller.  A function whose whole fallible
  body sits inside `try/except` returns a plain value.
* The `with connection.cursor() as cursor:` scope is modelled by threading
  an explicit count of open cursors: entering the block increments it and
  every exit path decrements it, as Python's `with` guarantees.
-/

/-- A Python exception, identified by its textual representation. -/
abbrev Exn := String

/-- A tag attached to a created DB instance (`{'Key': ..., 'Value': ...}`). -/
structure Tag where
  Key : String
  Value : String
deriving DecidableEq, Repr

/-- Keyword arguments of `client.create_db_instance` as passed by
`create_rds_instance` (src/rds_helpers.py lines 24-39). -/
structure CreateDBInstanceRequest where
  DBInstanceIdentifier : String
  MasterUsername : String
  MasterUserPassword : String
  AllocatedStorage : Int
  DBInstanceClass : String
  Engine : String
  PubliclyAccessible : Bool
  MultiAZ : Bool
  Tags : List Tag
deriving DecidableEq, Repr

/-- Keyword arguments of `client.modify_db_instance` (lines 172-175). -/
structure ModifyDBInstanceRequest where
  DBInstanceIdentifier : String
  DBInstanceClass : String
deriving DecidableEq, Repr

/-- Keyword arguments of `client.delete_db_instance` (lines 194-197). -/
structure DeleteDBInstanceRequest where
  DBInstanceIdentifier : String
  SkipFinalSnapshot : Bool
deriving DecidableEq, Repr

/-- Keyword arguments of `client.create_db_snapshot` (lines 217-220). -/
structure CreateDBSnapshotRequest where
  DBSnapshotIdentifier : String
  DBInstanceIdentifier : String
deriving DecidableEq, Repr

/-- The `Endpoint` sub-structure of a described DB instance record;
only its `Address` field is accessed by the module. -/
structure EndpointInfo where
  Address : String
deriving DecidableEq, Repr

/-- One record of `response['DBInstances']`: the `Endpoint` field that
`get_rds_instance_endpoint` reads, plus the rest of the provider's
metadata dictionary, kept abstract as `payload : ρ`. -/
structure DBInstanceInfo (ρ : Type) where
  Endpoint : EndpointInfo
  payload : ρ
deriving DecidableEq, Repr

/-- Response of `client.describe_db_instances`: a dictionary whose
`DBInstances` key holds the list of instance records.  Like every boto3
response dictionary it also carries a `ResponseMetadata` entry (request id,
HTTP status, ...), kept abstract as `ρ`; the module never reads it. -/
structure DescribeDBInstancesResponse (ρ : Type) where
  DBInstances : List (DBInstanceInfo ρ)
  ResponseMetadata : ρ
deriving DecidableEq, Repr

/-- The waiter object returned by `client.get_waiter('db_instance_available')`;
`wait` takes the `DBInstanceIdentifier` keyword argument and blocks, either
returning normally or raising. -/
structure RdsWaiter where
  wait : String → Except Exn Unit

/-- The administrative client returned by `boto3.client('rds')`.  Each
method models one provider API call as passed-request-to-fallible-response;
responses of the provisioning calls have the abstract type `ρ`. -/
structure RdsClient (ρ : Type) where
  create_db_instance : CreateDBInstanceRequest → Except Exn ρ
  get_waiter : String → RdsWaiter
  describe_db_instances : Option String → Except Exn (DescribeDBInstancesResponse ρ)
  modify_db_instance : ModifyDBInstanceRequest → Except Exn ρ
  delete_db_instance : DeleteDBInstanceRequest → Except Exn ρ
  create_db_snapshot : CreateDBSnapshotRequest → Except Exn ρ

/-- The `boto3` module: `client` constructs an administrative client for a
service name, and may itself raise (e.g. on misconfiguration). -/
structure Boto3 (ρ : Type) where
  client : String → Except Exn (RdsClient ρ)

/-- Default value of the `db_instance_class` parameter of
`create_rds_instance` (src/rds_helpers.py line 6). -/
def default_db_instance_class : String := "db.t2.micro"

/-- Default value of the `engine` parameter of `create_rds_instance`. -/
def default_engine : String := "mysql"

/-- Default value of the `allocated_storage` parameter of
`create_rds_instance`. -/
def default_allocated_storage : Int := 20

/-- The request record built at the call site of `client.create_db_instance`
inside `create_rds_instance` (lines 24-39): literal `PubliclyAccessible=True`,
`MultiAZ=False`, and a single `Name` tag carrying the identifier. -/
def create_db_instance_request (db_instance_identifier master_username
    master_password : String) (db_instance_class engine : String)
    (allocated_storage : Int) : CreateDBInstanceRequest :=
  { DBInstanceIdentifier := db_instance_identifier
    MasterUsername := master_username
    MasterUserPassword := master_password
    AllocatedStorage := allocated_storage
    DBInstanceClass := db_instance_class
    Engine := engine
    PubliclyAccessible := true
    MultiAZ := false
    Tags := [{ Key := "Name", Value := db_instance_identifier }] }

/-- `create_rds_instance` (lines 5-43): constructs the client before the
`try` block (so a construction exception propagates), then submits the
creation request; returns the response on success, prints and returns
`None` on any exception from the call. -/
def create_rds_instance {ρ : Type} (boto3 : Boto3 ρ)
    (db_instance_identifier master_username master_password : String)
    (db_instance_class engine : String) (allocated_storage : Int) :
    Except Exn (Option ρ × List String) := do
  let client ← boto3.client "rds"
  match client.create_db_instance
      (create_db_instance_request db_instance_identifier master_username
        master_password db_instance_class engine allocated_storage) with
  | .ok response => pure (some response, [])
  | .error e => pure (none, ["Error creating RDS instance: " ++ e])

/-- `create_rds_instance` called with all optional parameters left at
their defaults, as in `create_rds_instance("test-db", "admin", "pw123")`. -/
def create_rds_instance_defaults {ρ : Type} (boto3 : Boto3 ρ)
    (db_instance_identifier master_username master_password : String) :
    Except Exn (Option ρ × List String) :=
  create_rds_instance boto3 db_instance_identifier master_username
    master_password default_db_instance_class default_engine
    default_allocated_storage

/-- `wait_for_rds_instance_available` (lines 45-63): constructs the client
and the waiter before the `try` block, then waits; prints a success or
error line and returns no value. -/
def wait_for_rds_instance_available {ρ : Type} (boto3 : Boto3 ρ)
    (db_instance_identifier : String) : Except Exn (List String) := do
  let client ← boto3.client "rds"
  let waiter := client.get_waiter "db_instance_available"
  match waiter.wait db_instance_identifier with
  | .ok _ => pure ["RDS instance " ++ db_instance_identifier ++ " is available"]
  | .error e => pure ["Error waiting for RDS instance availability: " ++ e]

/-- `get_rds_instance_endpoint` (lines 65-83): describes the instance and
reads `response['DBInstances'][0]['Endpoint']['Address']`.  On an empty
`DBInstances` list the Python indexing raises `IndexError` inside the
`try`, which the broad handler catches, printing the exception's text
(`list index out of range`) and returning `None`. -/
def get_rds_instance_endpoint {ρ : Type} (boto3 : Boto3 ρ)
    (db_instance_identifier : String) :
    Except Exn (Option String × List String) := do
  let client ← boto3.client "rds"
  match client.describe_db_instances (some db_instance_identifier) with
  | .ok response =>
    match response.DBInstances with
    | [] => pure (none,
        ["Error getting RDS instance endpoint: list index out of range"])
    | inst :: _ => pure (some inst.Endpoint.Address, [])
  | .error e => pure (none, ["Error getting RDS instance endpoint: " ++ e])

/-- A pymysql cursor: `execute` runs a statement (possibly raising) and
`fetchall` yields the rows of the pending result set, each row an ordered
sequence of column values. -/
structure Cursor (ρ : Type) where
  execute : String → Except Exn Unit
  fetchall : List (List ρ)

/-- A pymysql connection handle: `cursor` acquires a cursor, `commit`
commits the pending transaction, `close` releases the connection; each
may raise. -/
structure Connection (ρ : Type) where
  cursor : Except Exn (Cursor ρ)
  commit : Except Exn Unit
  close : Except Exn Unit

/-- The `pymysql` module: `connect host user password database` opens a
connection or raises. -/
structure PyMySql (ρ : Type) where
  connect : String → String → String → String → Except Exn (Connection ρ)

/-- `create_db_connection` (lines 85-103): whole body inside `try/except`,
so no exception escapes; returns the handle or prints and returns `None`. -/
def create_db_connection {ρ : Type} (pymysql : PyMySql ρ)
    (endpoint username password database : String) :
    Option (Connection ρ) × List String :=
  match pymysql.connect endpoint username password database with
  | .ok connection => (some connection, [])
  | .error e => (none, ["Error creating database connection: " ++ e])

/-- Count of cursors currently open on the connection, threaded through
`execute_query` to express the scoped acquisition of
`with connection.cursor() as cursor:`. -/
structure CursorState where
  openCursors : Nat
deriving DecidableEq, Repr

/-- `execute_query` (lines 105-123): inside `try/except`, acquires a cursor
under `with` (incrementing the open count; every exit path of the block
decrements it again, as `with` guarantees), executes the statement, commits,
and returns `cursor.fetchall()`; any exception is caught, printed, and
`None` is returned. -/
def execute_query {ρ : Type} (connection : Connection ρ) (query : String)
    (s : CursorState) :
    Option (List (List ρ)) × CursorState × List String :=
  match connection.cursor with
  | .error e => (none, s, ["Error executing query: " ++ e])
  | .ok cursor =>
    let entered : CursorState := { openCursors := s.openCursors + 1 }
    match cursor.execute query with
    | .error e => (none, { openCursors := entered.openCursors - 1 },
        ["Error executing query: " ++ e])
    | .ok _ =>
      match connection.commit with
      | .error e => (none, { openCursors := entered.openCursors - 1 },
          ["Error executing query: " ++ e])
      | .ok _ => (some cursor.fetchall,
          { openCursors := entered.openCursors - 1 }, [])

/-- `close_db_connection` (lines 125-139): whole body inside `try/except`;
prints a confirmation or an error line and returns no value. -/
def close_db_connection {ρ : Type} (connection : Connection ρ) :
    List String :=
  match connection.close with
  | .ok _ => ["Database connection closed"]
  | .error e => ["Error closing database connection: " ++ e]

/-- `list_rds_instances` (lines 141-156): describes all instances and
returns `response['DBInstances']` — the list of records, not the enclosing
response structure. -/
def list_rds_instances {ρ : Type} (boto3 : Boto3 ρ) :
    Except Exn (Option (List (DBInstanceInfo ρ)) × List String) := do
  let client ← boto3.client "rds"
  match client.describe_db_instances none with
  | .ok response => pure (some response.DBInstances, [])
  | .error e => pure (none, ["Error listing RDS instances: " ++ e])

/-- `modify_rds_instance` (lines 158-179). -/
def modify_rds_instance {ρ : Type} (boto3 : Boto3 ρ)
    (db_instance_identifier new_instance_class : String) :
    Except Exn (Option ρ × List String) := do
  let client ← boto3.client "rds"
  match client.modify_db_instance
      { DBInstanceIdentifier := db_instance_identifier
        DBInstanceClass := new_instance_class } with
  | .ok response => pure (some response, [])
  | .error e => pure (none, ["Error modifying RDS instance: " ++ e])

/-- The request record built at the call site of `client.delete_db_instance`
inside `delete_rds_instance` (lines 194-197): `SkipFinalSnapshot=True`
always. -/
def delete_db_instance_request (db_instance_identifier : String) :
    DeleteDBInstanceRequest :=
  { DBInstanceIdentifier := db_instance_identifier
    SkipFinalSnapshot := true }

/-- `delete_rds_instance` (lines 181-201). -/
def delete_rds_instance {ρ : Type} (boto3 : Boto3 ρ)
    (db_instance_identifier : String) :
    Except Exn (Option ρ × List String) := do
  let client ← boto3.client "rds"
  match client.delete_db_instance
      (delete_db_instance_request db_instance_identifier) with
  | .ok response => pure (some response, [])
  | .error e => pure (none, ["Error deleting RDS instance: " ++ e])

/-- `create_db_snapshot` (lines 203-224). -/
def create_db_snapshot {ρ : Type} (boto3 : Boto3 ρ)
    (db_instance_identifier snapshot_identifier : String) :
    Except Exn (Option ρ × List String) := do
  let client ← boto3.client "rds"
  match client.create_db_snapshot
      { DBSnapshotIdentifier := snapshot_identifier
        DBInstanceIdentifier := db_instance_identifier } with
  | .ok response => pure (some response, [])
  | .error e => pure (none, ["Error creating DB snapshot: " ++ e])

/-- Whether a modelled computation returns normally, i.e. no exception
escapes to the caller. -/
def returnsNormally {α : Type} : Except Exn α → Bool
  | .ok _ => true
  | .error _ => false

/-! ### Concrete environments used to exercise the theorems -/

/-- A waiter whose `wait` succeeds. -/
def demoWaiter : RdsWaiter := { wait := fun _ => Except.ok () }

/-- A described instance record. -/
def demoRecord1 : DBInstanceInfo Nat :=
  { Endpoint := { Address := "db1.example.com" }, payload := 5 }

/-- A second described instance record. -/
def demoRecord2 : DBInstanceInfo Nat :=
  { Endpoint := { Address := "db2.example.com" }, payload := 6 }

/-- A describe response holding the two demo records. -/
def demoDescribeResponse : DescribeDBInstancesResponse Nat :=
  { DBInstances := [demoRecord1, demoRecord2], ResponseMetadata := 0 }

/-- A client whose calls all succeed with distinct responses. -/
def demoClient : RdsClient Nat :=
  { create_db_instance := fun _ => Except.ok 1
    get_waiter := fun _ => demoWaiter
    describe_db_instances := fun _ => Except.ok demoDescribeResponse
    modify_db_instance := fun _ => Except.ok 2
    delete_db_instance := fun _ => Except.ok 3
    create_db_snapshot := fun _ => Except.ok 4 }

/-- A boto3 module whose client construction succeeds with `demoClient`. -/
def demoBoto3 : Boto3 Nat := { client := fun _ => Except.ok demoClient }

/-- A waiter whose `wait` raises. -/
def errWaiter : RdsWaiter := { wait := fun _ => Except.error "boom" }

/-- A client whose every call raises. -/
def errClient : RdsClient Nat :=
  { create_db_instance := fun _ => Except.error "boom"
    get_waiter := fun _ => errWaiter
    describe_db_instances := fun _ => Except.error "boom"
    modify_db_instance := fun _ => Except.error "boom"
    delete_db_instance := fun _ => Except.error "boom"
    create_db_snapshot := fun _ => Except.error "boom" }

/-- A boto3 module whose client construction succeeds with `errClient`. -/
def errBoto3 : Boto3 Nat := { client := fun _ => Except.ok errClient }

/-- A boto3 module whose client construction itself raises. -/
def downBoto3 : Boto3 Nat := { client := fun _ => Except.error "no credentials" }

/-- A pymysql module whose `connect` raises. -/
def errPyMySql : PyMySql Nat :=
  { connect := fun _ _ _ _ => Except.error "boom" }

/-- A cursor yielding two rows of two columns. -/
def demoCursor : Cursor Nat :=
  { execute := fun _ => Except.ok (), fetchall := [[1, 2], [3, 4]] }

/-- A cursor whose statement succeeds but yields zero rows. -/
def emptyCursor : Cursor Nat :=
  { execute := fun _ => Except.ok (), fetchall := [] }

/-- A connection on which everything succeeds, rows from `demoCursor`. -/
def demoConnection : Connection Nat :=
  { cursor := Except.ok demoCursor, commit := Except.ok (), close := Except.ok () }

/-- A connection on which everything succeeds, zero rows fetched. -/
def emptyConnection : Connection Nat :=
  { cursor := Except.ok emptyCursor, commit := Except.ok (), close := Except.ok () }

/-- A connection on which every operation raises. -/
def errConnection : Connection Nat :=
  { cursor := Except.error "boom", commit := Except.error "boom",
    close := Except.error "boom" }

/-- A client observing create requests by echoing them as the response. -/
def spyClient : RdsClient CreateDBInstanceRequest :=
  { create_db_instance := fun req => Except.ok req
    get_waiter := fun _ => demoWaiter
    describe_db_instances := fun _ =>
      Except.error "not under observation"
    modify_db_instance := fun _ => Except.error "not under observation"
    delete_db_instance := fun _ => Except.error "not under observation"
    create_db_snapshot := fun _ => Except.error "not under observation" }

/-- A boto3 module handing out `spyClient`. -/
def spyBoto3 : Boto3 CreateDBInstanceRequest :=
  { client := fun _ => Except.ok spyClient }

/-- A client whose describe response has metadata `100`. -/
def metaClientA : RdsClient Nat :=
  { create_db_instance := fun _ => Except.ok 1
    get_waiter := fun _ => demoWaiter
    describe_db_instances := fun _ =>
      Except.ok { DBInstances := [demoRecord1], ResponseMetadata := 100 }
    modify_db_instance := fun _ => Except.ok 2
    delete_db_instance := fun _ => Except.ok 3
    create_db_snapshot := fun _ => Except.ok 4 }

/-- The same client but with describe metadata `200`. -/
def metaClientB : RdsClient Nat :=
  { create_db_instance := fun _ => Except.ok 1
    get_waiter := fun _ => demoWaiter
    describe_db_instances := fun _ =>
      Except.ok { DBInstances := [demoRecord1], ResponseMetadata := 200 }
    modify_db_instance := fun _ => Except.ok 2
    delete_db_instance := fun _ => Except.ok 3
    create_db_snapshot := fun _ => Except.ok 4 }

/-- boto3 handing out `metaClientA`. -/
def metaBoto3A : Boto3 Nat := { client := fun _ => Except.ok metaClientA }

/-- boto3 handing out `metaClientB`. -/
def metaBoto3B : Boto3 Nat := { client := fun _ => Except.ok metaClientB }

/-! ### Claims -/

/-- C1 counterexample: the claim says `list_rds_instances` returns the
external call's response unchanged.  It does not: it returns the
`DBInstances` field of the response.  Concretely, two providers whose
describe responses differ (in their `ResponseMetadata`) make
`list_rds_instances` return identical values, so the returned value cannot
be the response unchanged; the third conjunct shows the returned value is
the projected record list, not the enclosing response. -/
theorem list_response_not_returned_unchanged :
    list_rds_instances metaBoto3A = list_rds_instances metaBoto3B ∧
    metaClientA.describe_db_instances none ≠ metaClientB.describe_db_instances none ∧
    list_rds_instances metaBoto3A = Except.ok (some [demoRecord1], []) := by
  refine ⟨rfl, ?_, rfl⟩
  simp [metaClientA, metaClientB]

/-- C1 (amended): for `create_rds_instance`, `modify_rds_instance`,
`delete_rds_instance` and `create_db_snapshot`, a successful external
call's response is returned unchanged, while `list_rds_instances` returns
the `DBInstances` list of the response; for all five operations, an
exception from the external call yields the sentinel `none`. -/
theorem provisioning_response_or_sentinel {ρ : Type} (b : Boto3 ρ)
    (c : RdsClient ρ) (h : b.client "rds" = Except.ok c)
    (id u p cls eng sid : String) (st : Int) :
    (∀ r, c.create_db_instance (create_db_instance_request id u p cls eng st) =
        Except.ok r →
      create_rds_instance b id u p cls eng st = Except.ok (some r, [])) ∧
    (∀ e, c.create_db_instance (create_db_instance_request id u p cls eng st) =
        Except.error e →
      create_rds_instance b id u p cls eng st =
        Except.ok (none, ["Error creating RDS instance: " ++ e])) ∧
    (∀ resp, c.describe_db_instances none = Except.ok resp →
      list_rds_instances b = Except.ok (some resp.DBInstances, [])) ∧
    (∀ e, c.describe_db_instances none = Except.error e →
      list_rds_instances b =
        Except.ok (none, ["Error listing RDS instances: " ++ e])) ∧
    (∀ r, c.modify_db_instance
        { DBInstanceIdentifier := id, DBInstanceClass := cls } = Except.ok r →
      modify_rds_instance b id cls = Except.ok (some r, [])) ∧
    (∀ e, c.modify_db_instance
        { DBInstanceIdentifier := id, DBInstanceClass := cls } = Except.error e →
      modify_rds_instance b id cls =
        Except.ok (none, ["Error modifying RDS instance: " ++ e])) ∧
    (∀ r, c.delete_db_instance (delete_db_instance_request id) = Except.ok r →
      delete_rds_instance b id = Except.ok (some r, [])) ∧
    (∀ e, c.delete_db_instance (delete_db_instance_request id) = Except.error e →
      delete_rds_instance b id =
        Except.ok (none, ["Error deleting RDS instance: " ++ e])) ∧
    (∀ r, c.create_db_snapshot
        { DBSnapshotIdentifier := sid, DBInstanceIdentifier := id } = Except.ok r →
      create_db_snapshot b id sid = Except.ok (some r, [])) ∧
    (∀ e, c.create_db_snapshot
        { DBSnapshotIdentifier := sid, DBInstanceIdentifier := id } = Except.error e →
      create_db_snapshot b id sid =
        Except.ok (none, ["Error creating DB snapshot: " ++ e])) := by
  refine ⟨?_, ?_, ?_, ?_, ?_, ?_, ?_, ?_, ?_, ?_⟩ <;> intro x hx
  · simp [create_rds_instance, h, hx, Except.bind, Bind.bind, pure, Except.pure]
  · simp [create_rds_instance, h, hx, Except.bind, Bind.bind, pure, Except.pure]
  · simp [list_rds_instances, h, hx, Except.bind, Bind.bind, pure, Except.pure]
  · simp [list_rds_instances, h, hx, Except.bind, Bind.bind, pure, Except.pure]
  · simp [modify_rds_instance, h, hx, Except.bind, Bind.bind, pure, Except.pure]
  · simp [modify_rds_instance, h, hx, Except.bind, Bind.bind, pure, Except.pure]
  · simp [delete_rds_instance, h, hx, Except.bind, Bind.bind, pure, Except.pure]
  · simp [delete_rds_instance, h, hx, Except.bind, Bind.bind, pure, Except.pure]
  · simp [create_db_snapshot, h, hx, Except.bind, Bind.bind, pure, Except.pure]
  · simp [create_db_snapshot, h, hx, Except.bind, Bind.bind, pure, Except.pure]

/-- C1 witness: the amended theorem applied to a concrete provider, on the
success path of `create_rds_instance` and on the failure path of
`delete_rds_instance`. -/
theorem provisioning_response_or_sentinel_witness :
    create_rds_instance demoBoto3 "db" "u" "p" "cls" "eng" 20 =
      Except.ok (some 1, []) ∧
    delete_rds_instance errBoto3 "db" =
      Except.ok (none, ["Error deleting RDS instance: " ++ "boom"]) :=
  ⟨(provisioning_response_or_sentinel demoBoto3 demoClient rfl
      "db" "u" "p" "cls" "eng" "snap" 20).1 1 rfl,
   (provisioning_response_or_sentinel errBoto3 errClient rfl
      "db" "u" "p" "cls" "eng" "snap" 20).2.2.2.2.2.2.2.1 "boom" rfl⟩

/-- C3: `create_rds_instance("test-db", "admin", "pw123")` with all
optional parameters at their defaults submits a creation request whose
engine is `"mysql"`, allocated storage is `20`, instance class is
`"db.t2.micro"`, public accessibility is `true`, multi-AZ is `false`, and
whose tag list is exactly `[{Name: "test-db"}]`; the first conjunct ties
that request to the submitted call. -/
theorem create_defaults_example_request {ρ : Type} (b : Boto3 ρ)
    (c : RdsClient ρ) (h : b.client "rds" = Except.ok c) :
    (∀ r, c.create_db_instance (create_db_instance_request "test-db" "admin"
        "pw123" default_db_instance_class default_engine
        default_allocated_storage) = Except.ok r →
      create_rds_instance_defaults b "test-db" "admin" "pw123" =
        Except.ok (some r, [])) ∧
    (create_db_instance_request "test-db" "admin" "pw123"
      default_db_instance_class default_engine
      default_allocated_storage).Engine = "mysql" ∧
    (create_db_instance_request "test-db" "admin" "pw123"
      default_db_instance_class default_engine
      default_allocated_storage).AllocatedStorage = 20 ∧
    (create_db_instance_request "test-db" "admin" "pw123"
      default_db_instance_class default_engine
      default_allocated_storage).DBInstanceClass = "db.t2.micro" ∧
    (create_db_instance_request "test-db" "admin" "pw123"
      default_db_instance_class default_engine
      default_allocated_storage).PubliclyAccessible = true ∧
    (create_db_instance_request "test-db" "admin" "pw123"
      default_db_instance_class default_engine
      default_allocated_storage).MultiAZ = false ∧
    (create_db_instance_request "test-db" "admin" "pw123"
      default_db_instance_class default_engine
      default_allocated_storage).Tags =
        [{ Key := "Name", Value := "test-db" }] := by
  refine ⟨?_, rfl, rfl, rfl, rfl, rfl, rfl⟩
  intro r hr
  simp [create_rds_instance_defaults, create_rds_instance, h, hr,
    Except.bind, Bind.bind, pure, Except.pure]

/-- C3 witness: the theorem applied to the concrete successful provider. -/
theorem create_defaults_example_request_witness :
    create_rds_instance_defaults demoBoto3 "test-db" "admin" "pw123" =
      Except.ok (some 1, []) :=
  (create_defaults_example_request demoBoto3 demoClient rfl).1 1 rfl

/-- C4 counterexample: the claim says the default compute class is
`'small-default'`.  It is `'db.t2.micro'` (src/rds_helpers.py line 6): a
client that echoes the submitted request shows the defaulted call carries
`DBInstanceClass = "db.t2.micro"`, which differs from `"small-default"`. -/
theorem create_default_class_counterexample :
    create_rds_instance_defaults spyBoto3 "test-db" "admin" "pw123" =
      Except.ok (some (create_db_instance_request "test-db" "admin" "pw123"
        "db.t2.micro" "mysql" 20), []) ∧
    (create_db_instance_request "test-db" "admin" "pw123"
      "db.t2.micro" "mysql" 20).DBInstanceClass = "db.t2.micro" ∧
    ("db.t2.micro" : String) ≠ "small-default" := by
  refine ⟨rfl, rfl, ?_⟩
  decide

/-- C4 (amended): when `create_rds_instance` is called without an explicit
instance-class argument, the submitted creation request uses the default
compute class `"db.t2.micro"`, with public accessibility enabled, multi-AZ
disabled, and the instance tagged with its identifier as its name. -/
theorem create_defaults_request_amended {ρ : Type} (b : Boto3 ρ)
    (c : RdsClient ρ) (h : b.client "rds" = Except.ok c) (id u p : String) :
    (∀ r, c.create_db_instance (create_db_instance_request id u p
        default_db_instance_class default_engine
        default_allocated_storage) = Except.ok r →
      create_rds_instance_defaults b id u p = Except.ok (some r, [])) ∧
    (create_db_instance_request id u p default_db_instance_class
      default_engine default_allocated_storage).DBInstanceClass =
        "db.t2.micro" ∧
    (create_db_instance_request id u p default_db_instance_class
      default_engine default_allocated_storage).PubliclyAccessible = true ∧
    (create_db_instance_request id u p default_db_instance_class
      default_engine default_allocated_storage).MultiAZ = false ∧
    (create_db_instance_request id u p default_db_instance_class
      default_engine default_allocated_storage).Tags =
        [{ Key := "Name", Value := id }] := by
  refine ⟨?_, rfl, rfl, rfl, rfl⟩
  intro r hr
  simp [create_rds_instance_defaults, create_rds_instance, h, hr,
    Except.bind, Bind.bind, pure, Except.pure]

/-- C4 witness: the amended theorem applied to the concrete provider. -/
theorem create_defaults_request_amended_witness :
    create_rds_instance_defaults demoBoto3 "mydb" "root" "secret" =
      Except.ok (some 1, []) :=
  (create_defaults_request_amended demoBoto3 demoClient rfl
    "mydb" "root" "secret").1 1 rfl

/-- C8: `delete_rds_instance` submits a deletion request that always
carries `SkipFinalSnapshot = true`, returns the provider's response on
success, and returns the sentinel `none` on failure. -/
theorem delete_always_skips_final_snapshot {ρ : Type} (b : Boto3 ρ)
    (c : RdsClient ρ) (h : b.client "rds" = Except.ok c) (id : String) :
    (delete_db_instance_request id).SkipFinalSnapshot = true ∧
    (∀ r, c.delete_db_instance (delete_db_instance_request id) = Except.ok r →
      delete_rds_instance b id = Except.ok (some r, [])) ∧
    (∀ e, c.delete_db_instance (delete_db_instance_request id) = Except.error e →
      delete_rds_instance b id =
        Except.ok (none, ["Error deleting RDS instance: " ++ e])) := by
  refine ⟨rfl, ?_, ?_⟩ <;> intro x hx <;>
    simp [delete_rds_instance, h, hx, Except.bind, Bind.bind, pure, Except.pure]

/-- C8 witness: the theorem applied to the concrete successful provider. -/
theorem delete_always_skips_final_snapshot_witness :
    (delete_db_instance_request "db1").SkipFinalSnapshot = true ∧
    delete_rds_instance demoBoto3 "db1" = Except.ok (some 3, []) :=
  ⟨(delete_always_skips_final_snapshot demoBoto3 demoClient rfl "db1").1,
   (delete_always_skips_final_snapshot demoBoto3 demoClient rfl "db1").2.1 3 rfl⟩

/-- C9: when the provider's describe call succeeds with a response whose
`DBInstances` list holds two records, `list_rds_instances` returns exactly
those two records, not the enclosing response structure. -/
theorem list_returns_describe_records {ρ : Type} (b : Boto3 ρ)
    (c : RdsClient ρ) (h : b.client "rds" = Except.ok c)
    (r1 r2 : DBInstanceInfo ρ) (resp : DescribeDBInstancesResponse ρ)
    (hd : c.describe_db_instances none = Except.ok resp)
    (hl : resp.DBInstances = [r1, r2]) :
    list_rds_instances b = Except.ok (some [r1, r2], []) := by
  simp [list_rds_instances, h, hd, hl, Except.bind, Bind.bind, pure, Except.pure]

/-- C9 witness: the theorem applied to the concrete provider describing the
two demo records. -/
theorem list_returns_describe_records_witness :
    list_rds_instances demoBoto3 =
      Except.ok (some [demoRecord1, demoRecord2], []) :=
  list_returns_describe_records demoBoto3 demoClient rfl
    demoRecord1 demoRecord2 demoDescribeResponse rfl rfl

/-- C5: `get_rds_instance_endpoint` returns exactly the `Address` field
nested under the `Endpoint` structure of the first described instance;
when the described instance list is empty, the `IndexError` raised by the
subscript is caught inside the function (the overall result is still
`Except.ok`, so no index error escapes) and the sentinel `none` is
returned. -/
theorem get_endpoint_first_address_or_sentinel {ρ : Type} (b : Boto3 ρ)
    (c : RdsClient ρ) (h : b.client "rds" = Except.ok c) (id : String)
    (resp : DescribeDBInstancesResponse ρ)
    (hd : c.describe_db_instances (some id) = Except.ok resp) :
    (∀ inst rest, resp.DBInstances = inst :: rest →
      get_rds_instance_endpoint b id =
        Except.ok (some inst.Endpoint.Address, [])) ∧
    (resp.DBInstances = [] →
      get_rds_instance_endpoint b id = Except.ok
        (none, ["Error getting RDS instance endpoint: list index out of range"])) := by
  constructor
  · intro inst rest hl
    simp [get_rds_instance_endpoint, h, hd, hl, Except.bind, Bind.bind,
      pure, Except.pure]
  · intro hl
    simp [get_rds_instance_endpoint, h, hd, hl, Except.bind, Bind.bind,
      pure, Except.pure]

/-- C5 witness: the theorem applied to the concrete provider, whose first
described record has address `"db1.example.com"`. -/
theorem get_endpoint_first_address_or_sentinel_witness :
    get_rds_instance_endpoint demoBoto3 "mydb" =
      Except.ok (some "db1.example.com", []) :=
  (get_endpoint_first_address_or_sentinel demoBoto3 demoClient rfl "mydb"
    demoDescribeResponse rfl).1 demoRecord1 [demoRecord2] rfl

/-- C6: `execute_query` runs the statement inside a scoped cursor: on every
path the count of open cursors is restored (first conjunct), a fully
successful run commits and returns all fetched rows (second conjunct), and
if the cursor raises during execution the cursor is still released and the
sentinel `none` is returned (third conjunct). -/
theorem execute_query_scoped_cursor {ρ : Type} (conn : Connection ρ)
    (q : String) (s : CursorState) :
    (execute_query conn q s).2.1 = s ∧
    (∀ cur, conn.cursor = Except.ok cur → cur.execute q = Except.ok () →
      conn.commit = Except.ok () →
      execute_query conn q s = (some cur.fetchall, s, [])) ∧
    (∀ cur e, conn.cursor = Except.ok cur → cur.execute q = Except.error e →
      execute_query conn q s = (none, s, ["Error executing query: " ++ e])) := by
  refine ⟨?_, ?_, ?_⟩
  · cases hcur : conn.cursor with
    | error e => simp [execute_query, hcur]
    | ok cur =>
      cases hex : cur.execute q with
      | error e => simp [execute_query, hcur, hex]
      | ok u =>
        cases hcom : conn.commit <;> simp [execute_query, hcur, hex, hcom]
  · intro cur hcur hex hcom
    simp [execute_query, hcur, hex, hcom]
  · intro cur e hcur hex
    simp [execute_query, hcur, hex]

/-- C6 witness: the theorem applied to the concrete connection whose
cursor yields two rows, starting with no open cursor. -/
theorem execute_query_scoped_cursor_witness :
    execute_query demoConnection "SELECT a, b FROM t" { openCursors := 0 } =
      (some [[1, 2], [3, 4]], { openCursors := 0 }, []) :=
  (execute_query_scoped_cursor demoConnection "SELECT a, b FROM t"
    { openCursors := 0 }).2.1 demoCursor rfl rfl rfl

/-- C7: when the statement succeeds and the cursor fetches zero rows,
`execute_query` returns the empty row list `some []`, not the sentinel
`none`: zero rows is success, not failure. -/
theorem execute_query_zero_rows_success {ρ : Type} (conn : Connection ρ)
    (q : String) (s : CursorState) (cur : Cursor ρ)
    (hcur : conn.cursor = Except.ok cur) (hrows : cur.fetchall = [])
    (hex : cur.execute q = Except.ok ()) (hcom : conn.commit = Except.ok ()) :
    (execute_query conn q s).1 = some [] ∧
    (execute_query conn q s).1 ≠ none := by
  constructor
  · simp [execute_query, hcur, hex, hcom, hrows]
  · simp [execute_query, hcur, hex, hcom]

/-- C7 witness: the theorem applied to the concrete connection whose
cursor yields zero rows. -/
theorem execute_query_zero_rows_success_witness :
    (execute_query emptyConnection "SELECT a FROM t"
      { openCursors := 0 }).1 = some [] ∧
    (execute_query emptyConnection "SELECT a FROM t"
      { openCursors := 0 }).1 ≠ none :=
  execute_query_zero_rows_success emptyConnection "SELECT a FROM t"
    { openCursors := 0 } emptyCursor rfl rfl rfl rfl

/-- C2: for every wrapper function (the five provisioning operations, the
waiter, connect, execute, and close), an error raised by the underlying
external call is caught inside the function, a diagnostic line is emitted,
and the function yields the sentinel `none` (or, for the waiter and close,
no return value); the error never propagates — the results below are all
plain values or `Except.ok`. -/
theorem wrappers_swallow_errors {ρ : Type} (b : Boto3 ρ) (c : RdsClient ρ)
    (h : b.client "rds" = Except.ok c) (m : PyMySql ρ) (conn : Connection ρ)
    (id cls eng ep u p db sid q : String) (st : Int) (s : CursorState)
    (e : Exn) :
    (c.create_db_instance (create_db_instance_request id u p cls eng st) =
        Except.error e →
      create_rds_instance b id u p cls eng st =
        Except.ok (none, ["Error creating RDS instance: " ++ e])) ∧
    ((c.get_waiter "db_instance_available").wait id = Except.error e →
      wait_for_rds_instance_available b id =
        Except.ok ["Error waiting for RDS instance availability: " ++ e]) ∧
    (c.describe_db_instances (some id) = Except.error e →
      get_rds_instance_endpoint b id =
        Except.ok (none, ["Error getting RDS instance endpoint: " ++ e])) ∧
    (m.connect ep u p db = Except.error e →
      create_db_connection m ep u p db =
        (none, ["Error creating database connection: " ++ e])) ∧
    (conn.cursor = Except.error e →
      execute_query conn q s = (none, s, ["Error executing query: " ++ e])) ∧
    (∀ cur, conn.cursor = Except.ok cur → cur.execute q = Except.error e →
      execute_query conn q s = (none, s, ["Error executing query: " ++ e])) ∧
    (∀ cur, conn.cursor = Except.ok cur → cur.execute q = Except.ok () →
      conn.commit = Except.error e →
      execute_query conn q s = (none, s, ["Error executing query: " ++ e])) ∧
    (conn.close = Except.error e →
      close_db_connection conn =
        ["Error closing database connection: " ++ e]) ∧
    (c.describe_db_instances none = Except.error e →
      list_rds_instances b =
        Except.ok (none, ["Error listing RDS instances: " ++ e])) ∧
    (c.modify_db_instance
        { DBInstanceIdentifier := id, DBInstanceClass := cls } = Except.error e →
      modify_rds_instance b id cls =
        Except.ok (none, ["Error modifying RDS instance: " ++ e])) ∧
    (c.delete_db_instance (delete_db_instance_request id) = Except.error e →
      delete_rds_instance b id =
        Except.ok (none, ["Error deleting RDS instance: " ++ e])) ∧
    (c.create_db_snapshot
        { DBSnapshotIdentifier := sid, DBInstanceIdentifier := id } =
          Except.error e →
      create_db_snapshot b id sid =
        Except.ok (none, ["Error creating DB snapshot: " ++ e])) := by
  refine ⟨?_, ?_, ?_, ?_, ?_, ?_, ?_, ?_, ?_, ?_, ?_, ?_⟩
  · intro hx
    simp [create_rds_instance, h, hx, Except.bind, Bind.bind, pure, Except.pure]
  · intro hx
    simp [wait_for_rds_instance_available, h, hx, Except.bind, Bind.bind,
      pure, Except.pure]
  · intro hx
    simp [get_rds_instance_endpoint, h, hx, Except.bind, Bind.bind,
      pure, Except.pure]
  · intro hx
    simp [create_db_connection, hx]
  · intro hx
    simp [execute_query, hx]
  · intro cur hcur hx
    simp [execute_query, hcur, hx]
  · intro cur hcur hex hx
    simp [execute_query, hcur, hex, hx]
  · intro hx
    simp [close_db_connection, hx]
  · intro hx
    simp [list_rds_instances, h, hx, Except.bind, Bind.bind, pure, Except.pure]
  · intro hx
    simp [modify_rds_instance, h, hx, Except.bind, Bind.bind, pure, Except.pure]
  · intro hx
    simp [delete_rds_instance, h, hx, Except.bind, Bind.bind, pure, Except.pure]
  · intro hx
    simp [create_db_snapshot, h, hx, Except.bind, Bind.bind, pure, Except.pure]

/-- C2 witness: the theorem applied to concrete failing collaborators, on
the create, waiter, cursor-acquisition and close error paths. -/
theorem wrappers_swallow_errors_witness :
    create_rds_instance errBoto3 "i" "u" "p" "cls" "eng" 20 =
      Except.ok (none, ["Error creating RDS instance: " ++ "boom"]) ∧
    wait_for_rds_instance_available errBoto3 "i" =
      Except.ok ["Error waiting for RDS instance availability: " ++ "boom"] ∧
    execute_query errConnection "SELECT 1" { openCursors := 0 } =
      (none, { openCursors := 0 }, ["Error executing query: " ++ "boom"]) ∧
    close_db_connection errConnection =
      ["Error closing database connection: " ++ "boom"] :=
  ⟨(wrappers_swallow_errors errBoto3 errClient rfl errPyMySql errConnection
      "i" "cls" "eng" "ep" "u" "p" "d" "s" "SELECT 1" 20
      { openCursors := 0 } "boom").1 rfl,
   (wrappers_swallow_errors errBoto3 errClient rfl errPyMySql errConnection
      "i" "cls" "eng" "ep" "u" "p" "d" "s" "SELECT 1" 20
      { openCursors := 0 } "boom").2.1 rfl,
   (wrappers_swallow_errors errBoto3 errClient rfl errPyMySql errConnection
      "i" "cls" "eng" "ep" "u" "p" "d" "s" "SELECT 1" 20
      { openCursors := 0 } "boom").2.2.2.2.1 rfl,
   (wrappers_swallow_errors errBoto3 errClient rfl errPyMySql errConnection
      "i" "cls" "eng" "ep" "u" "p" "d" "s" "SELECT 1" 20
      { openCursors := 0 } "boom").2.2.2.2.2.2.2.1 rfl⟩

/-- C10: in every provisioning operation and the waiter, the client is
constructed before the `try` block, so an exception from client
construction propagates unchanged to the caller (first half); and that is
the only escaping path: once construction succeeds, every one of these
functions returns normally (second half). -/
theorem client_construction_error_escapes {ρ : Type} (b : Boto3 ρ)
    (id u p cls eng sid : String) (st : Int) :
    (∀ e, b.client "rds" = Except.error e →
      create_rds_instance b id u p cls eng st = Except.error e ∧
      wait_for_rds_instance_available b id = Except.error e ∧
      get_rds_instance_endpoint b id = Except.error e ∧
      list_rds_instances b = Except.error e ∧
      modify_rds_instance b id cls = Except.error e ∧
      delete_rds_instance b id = Except.error e ∧
      create_db_snapshot b id sid = Except.error e) ∧
    (∀ c, b.client "rds" = Except.ok c →
      returnsNormally (create_rds_instance b id u p cls eng st) = true ∧
      returnsNormally (wait_for_rds_instance_available b id) = true ∧
      returnsNormally (get_rds_instance_endpoint b id) = true ∧
      returnsNormally (list_rds_instances b) = true ∧
      returnsNormally (modify_rds_instance b id cls) = true ∧
      returnsNormally (delete_rds_instance b id) = true ∧
      returnsNormally (create_db_snapshot b id sid) = true) := by
  constructor
  · intro e he
    refine ⟨?_, ?_, ?_, ?_, ?_, ?_, ?_⟩ <;>
      simp [create_rds_instance, wait_for_rds_instance_available,
        get_rds_instance_endpoint, list_rds_instances, modify_rds_instance,
        delete_rds_instance, create_db_snapshot, he,
        Except.bind, Bind.bind, pure, Except.pure]
  · intro c hc
    refine ⟨?_, ?_, ?_, ?_, ?_, ?_, ?_⟩
    · cases hx : c.create_db_instance
          (create_db_instance_request id u p cls eng st) <;>
        simp [returnsNormally, create_rds_instance, hc, hx,
          Except.bind, Bind.bind, pure, Except.pure]
    · cases hx : (c.get_waiter "db_instance_available").wait id <;>
        simp [returnsNormally, wait_for_rds_instance_available, hc, hx,
          Except.bind, Bind.bind, pure, Except.pure]
    · cases hx : c.describe_db_instances (some id) with
      | error e =>
        simp [returnsNormally, get_rds_instance_endpoint, hc, hx,
          Except.bind, Bind.bind, pure, Except.pure]
      | ok resp =>
        cases hl : resp.DBInstances <;>
          simp [returnsNormally, get_rds_instance_endpoint, hc, hx, hl,
            Except.bind, Bind.bind, pure, Except.pure]
    · cases hx : c.describe_db_instances none <;>
        simp [returnsNormally, list_rds_instances, hc, hx,
          Except.bind, Bind.bind, pure, Except.pure]
    · cases hx : c.modify_db_instance
          { DBInstanceIdentifier := id, DBInstanceClass := cls } <;>
        simp [returnsNormally, modify_rds_instance, hc, hx,
          Except.bind, Bind.bind, pure, Except.pure]
    · cases hx : c.delete_db_instance (delete_db_instance_request id) <;>
        simp [returnsNormally, delete_rds_instance, hc, hx,
          Except.bind, Bind.bind, pure, Except.pure]
    · cases hx : c.create_db_snapshot
          { DBSnapshotIdentifier := sid, DBInstanceIdentifier := id } <;>
        simp [returnsNormally, create_db_snapshot, hc, hx,
          Except.bind, Bind.bind, pure, Except.pure]

/-- C10 witness: the theorem applied to a provider whose client
construction raises and to one whose construction succeeds. -/
theorem client_construction_error_escapes_witness :
    create_rds_instance downBoto3 "i" "u" "p" "cls" "eng" 20 =
      Except.error "no credentials" ∧
    wait_for_rds_instance_available downBoto3 "i" =
      Except.error "no credentials" ∧
    returnsNormally (list_rds_instances demoBoto3) = true :=
  ⟨((client_construction_error_escapes downBoto3
      "i" "u" "p" "cls" "eng" "s" 20).1 "no credentials" rfl).1,
   ((client_construction_error_escapes downBoto3
      "i" "u" "p" "cls" "eng" "s" 20).1 "no credentials" rfl).2.1,
   ((client_construction_error_escapes demoBoto3
      "i" "u" "p" "cls" "eng" "s" 20).2 demoClient rfl).2.2.2.1⟩
